import Mathlib

/-! btvolumefix / legacyswitch : `volumetest.cpp`

A shallow embedding of the one-shot utility that toggles the Bluetooth
"legacy volume control" key (key `8` of the central-repository namespace
`0x10204DAB`) and reports the result in a global note.

The program text is two functions, `MainL` and `E32Main`.  Everything they call
belongs to the platform (`CAknGlobalNote`, `CRepository`, `CleanupStack`,
`TRAP`).  The platform is modelled as follows.

* The fallible collaborators (`CAknGlobalNote::NewL`, `CRepository::NewL`,
  `CRepository::Get`, `CRepository::Set`, `CAknGlobalNote::ShowNoteL`) take
  their outcome from an `Env` record, one outcome per call site; every call is
  recorded, with its arguments and outcome, in a trace.
* The repository contents are a total map from (namespace, key) to integers.
  A successful `Get` yields the stored integer, a successful `Set` stores the
  integer it is given.
* The trap harness and the cleanup stack are taken as reliable and are
  deterministic: `CTrapCleanup::New` installs the stack, the cleanup stack is a
  list of trap levels, `PushL` pushes onto the innermost level (exhaustion of
  memory for the stack's own slots is outside the model), `PopAndDestroy` pops
  and destroys the top item, and a leave destroys the items of the innermost
  level (most recent first) before control reaches the trap.  Misuse of the
  cleanup stack is a panic.
-/

namespace VolumeTest

/-! ## Platform constants and data -/

/-- Symbian `KErrNone`. -/
def KErrNone : Int := 0

/-- The value of `TUid KCRUidBluetoothEngine = { 0x10204DAB }`. -/
def KCRUidBluetoothEngine : Int := 0x10204DAB

/-- The two `TAknGlobalNoteType` values the program uses. -/
inductive TAknGlobalNoteType where
  | EAknGlobalInformationNote
  | EAknGlobalErrorNote
  deriving DecidableEq

/-- The objects `MainL` owns through the cleanup stack. -/
inductive Handle where
  | dialog
  | cenrep
  deriving DecidableEq

/-- One call into a collaborator, with its arguments and its outcome, or the
destruction of an owned object.  A `leave` field is `none` when the call returned
normally and `some code` when it left with `code`; the `value` of a `get` is the
content of its output argument after the call. -/
inductive Event where
  | dialogNewL (leave : Option Int)
  | repositoryNewL (uid : Int) (leave : Option Int)
  | get (uid : Int) (key : Nat) (err : Int) (value : Int)
  | set (uid : Int) (key : Nat) (value : Int) (err : Int)
  | showNote (type : TAknGlobalNoteType) (text : String) (leave : Option Int)
  | destroy (h : Handle)
  deriving DecidableEq

/-- Contents of the central repository: namespace, key, stored integer. -/
abbrev Store := Int → Nat → Int

/-- The store with one entry replaced. -/
def Store.write (st : Store) (uid : Int) (key : Nat) (value : Int) : Store :=
  fun u k => if u = uid ∧ k = key then value else st u k

/-- Outcomes of the collaborator calls of one run of the program. -/
structure Env where
  /-- Leave code of `CAknGlobalNote::NewL()`, `none` when it returns. -/
  dialogNewL : Option Int
  /-- Leave code of `CRepository::NewL(uid)`, `none` when it returns. -/
  repositoryNewL : Option Int
  /-- Return code of `CRepository::Get`. -/
  getErr : Int
  /-- What a failing `Get` leaves in its output argument, from what the
  argument held before the call. -/
  getOut : Int → Int
  /-- Return code of `CRepository::Set`. -/
  setErr : Int
  /-- What the key holds after a failing `Set`, from the value held before and
  the value requested. -/
  failedSetStores : Int → Int → Int
  /-- Leave code of `CAknGlobalNote::ShowNoteL`, `none` when it returns. -/
  showNoteL : Option Int

/-- Machine state: repository contents, the trace so far, and the cleanup stack
as a list of trap levels (innermost first, most recent item first). -/
structure State where
  store : Store
  trace : List Event
  cleanupStack : List (List Handle)

/-- Abnormal completion: a leave with its code, or a panic. -/
inductive Fault where
  | leave (code : Int)
  | panicked
  deriving DecidableEq

/-- A computation over the machine state that returns, leaves or panics. -/
def Prog (α : Type) : Type := State → Except Fault α × State

/-- Run a computation from a state. -/
def Prog.run {α : Type} (m : Prog α) (s : State) : Except Fault α × State := m s

instance : Monad Prog where
  pure a := fun s => (Except.ok a, s)
  bind m f := fun s =>
    match m s with
    | (Except.ok a, t) => f a t
    | (Except.error e, t) => (Except.error e, t)

/-! ## Platform operations -/

/-- Append an event to the trace. -/
def emit (e : Event) : Prog Unit :=
  fun s => (Except.ok (), { s with trace := s.trace ++ [e] })

/-- The leave `User::Leave(code)`: the items of the innermost trap level are
destroyed, most recent first, and control passes to the trap. -/
def User.Leave {α : Type} (code : Int) : Prog α :=
  fun s =>
    match s.cleanupStack with
    | [] => (Except.error Fault.panicked, s)
    | level :: rest =>
      (Except.error (Fault.leave code),
        { s with trace := s.trace ++ level.map Event.destroy, cleanupStack := [] :: rest })

/-- The call `CleanupStack::PushL(item)`: the item goes onto the innermost trap
level; without a trap level the call panics.  The stack keeps a slot in reserve,
so the item is always pushed; a leave for want of memory for a further slot is
outside the model. -/
def CleanupStack.PushL (item : Handle) : Prog Unit :=
  fun s =>
    match s.cleanupStack with
    | [] => (Except.error Fault.panicked, s)
    | level :: rest => (Except.ok (), { s with cleanupStack := (item :: level) :: rest })

/-- The call `CleanupStack::PopAndDestroy(aExpectedItem)`: the top item must be
the expected one; it is popped and destroyed. -/
def CleanupStack.PopAndDestroy (aExpectedItem : Handle) : Prog Unit :=
  fun s =>
    match s.cleanupStack with
    | (item :: level) :: rest =>
      if item = aExpectedItem then
        (Except.ok (), { s with trace := s.trace ++ [Event.destroy item],
                                cleanupStack := level :: rest })
      else (Except.error Fault.panicked, s)
    | _ => (Except.error Fault.panicked, s)

/-- The harness `TRAPD(error, stmt)`: `error` is `KErrNone` when `stmt`
completes and the leave code when it leaves. -/
def TRAPD (stmt : Prog Unit) : Prog Int :=
  fun s =>
    match stmt { s with cleanupStack := [] :: s.cleanupStack } with
    | (Except.ok _, t) => (Except.ok KErrNone, { t with cleanupStack := t.cleanupStack.tail })
    | (Except.error (Fault.leave code), t) =>
      (Except.ok code, { t with cleanupStack := t.cleanupStack.tail })
    | (Except.error Fault.panicked, t) => (Except.error Fault.panicked, t)

/-- The harness `TRAP_IGNORE(x = expr)`: the value of `expr` when it
returns, nothing when it leaves (the assignment does not happen). -/
def TRAP_IGNORE {α : Type} (expr : Prog α) : Prog (Option α) :=
  fun s =>
    match expr { s with cleanupStack := [] :: s.cleanupStack } with
    | (Except.ok a, t) => (Except.ok (some a), { t with cleanupStack := t.cleanupStack.tail })
    | (Except.error (Fault.leave _), t) =>
      (Except.ok none, { t with cleanupStack := t.cleanupStack.tail })
    | (Except.error Fault.panicked, t) => (Except.error Fault.panicked, t)

/-- The call `CTrapCleanup::New()`: installs an empty cleanup stack. -/
def CTrapCleanup.New : Prog Unit :=
  fun s => (Except.ok (), { s with cleanupStack := [] })

/-- The statement `delete cleanup`. -/
def CTrapCleanup.delete : Prog Unit :=
  fun s => (Except.ok (), { s with cleanupStack := [] })

/-- The call `CAknGlobalNote::NewL()`. -/
def CAknGlobalNote.NewL (env : Env) : Prog Unit := do
  emit (Event.dialogNewL env.dialogNewL)
  match env.dialogNewL with
  | none => pure ()
  | some code => User.Leave code

/-- A `CRepository` object, bound to the namespace it was opened for. -/
structure CRepository where
  uid : Int

/-- The call `CRepository::NewL(uid)`. -/
def CRepository.NewL (env : Env) (uid : Int) : Prog CRepository := do
  emit (Event.repositoryNewL uid env.repositoryNewL)
  match env.repositoryNewL with
  | none => pure { uid := uid }
  | some code => User.Leave code

/-- The call `err = cenrep->Get(key, value)`, `value` passed by reference:
returns the error code and the content of `value` after the call. -/
def CRepository.Get (self : CRepository) (env : Env) (key : Nat) (value : Int) :
    Prog (Int × Int) :=
  fun s =>
    let out := if env.getErr = KErrNone then s.store self.uid key else env.getOut value
    (Except.ok (env.getErr, out),
      { s with trace := s.trace ++ [Event.get self.uid key env.getErr out] })

/-- The call `cenrep->Set(key, value)`: returns the error code. -/
def CRepository.Set (self : CRepository) (env : Env) (key : Nat) (value : Int) : Prog Int :=
  fun s =>
    (Except.ok env.setErr,
      { s with
        trace := s.trace ++ [Event.set self.uid key value env.setErr]
        store := s.store.write self.uid key
          (if env.setErr = KErrNone then value
           else env.failedSetStores (s.store self.uid key) value) })

/-- The call `dialog->ShowNoteL(type, text)`; the note id it returns is not used. -/
def CAknGlobalNote.ShowNoteL (env : Env) (type : TAknGlobalNoteType) (text : String) :
    Prog Unit := do
  emit (Event.showNote type text env.showNoteL)
  match env.showNoteL with
  | none => pure ()
  | some code => User.Leave code

/-! ## The program -/

open TAknGlobalNoteType in
/-- The function `MainL` of `volumetest.cpp`. -/
def MainL (env : Env) : Prog Unit := do
  CAknGlobalNote.NewL env
  CleanupStack.PushL Handle.dialog
  let cenrep ← TRAP_IGNORE (CRepository.NewL env KCRUidBluetoothEngine)
  match cenrep with
  | some cenrep =>
    CleanupStack.PushL Handle.cenrep
    let value : Int := 0
    let (err, value) ← cenrep.Get env 8 value
    let failed ←
      if err ≠ KErrNone then pure true
      else do
        let r ← cenrep.Set env 8 (if value = 1 then 0 else 1)
        pure (decide (r ≠ KErrNone))
    if failed then
      CAknGlobalNote.ShowNoteL env EAknGlobalErrorNote "CRepository4All patch not enabled!"
    else if value = 1 then
      CAknGlobalNote.ShowNoteL env EAknGlobalInformationNote
        "Bluetooth legacy volume control disabled"
    else
      CAknGlobalNote.ShowNoteL env EAknGlobalInformationNote
        "Bluetooth legacy volume control enabled"
    CleanupStack.PopAndDestroy Handle.cenrep
  | none =>
    CAknGlobalNote.ShowNoteL env EAknGlobalErrorNote "Failed to open repository!"
  CleanupStack.PopAndDestroy Handle.dialog

/-- The function `E32Main` of `volumetest.cpp`. -/
def E32Main (env : Env) : Prog Int := do
  CTrapCleanup.New
  let error ← TRAPD (MainL env)
  CTrapCleanup.delete
  return error

/-! ## Running the program and observing a run -/

/-- The state in which `E32Main` enters `MainL`: a fresh cleanup stack with the
one trap level of `TRAPD`. -/
def entry (store : Store) : State :=
  { store := store, trace := [], cleanupStack := [[]] }

/-- One run of `MainL` on the given repository contents. -/
def runMainL (env : Env) (store : Store) : Except Fault Unit × State :=
  (MainL env).run (entry store)

/-- The trace of one run of `MainL`. -/
def traceOf (env : Env) (store : Store) : List Event :=
  (runMainL env store).2.trace

/-- The repository contents after one run of `MainL`. -/
def storeAfter (env : Env) (store : Store) : Store :=
  (runMainL env store).2.store

/-- One run of the process on the given repository contents. -/
def runE32Main (env : Env) (store : Store) : Except Fault Int × State :=
  (E32Main env).run { store := store, trace := [], cleanupStack := [] }

/-- The Flag: key `8` of the namespace `KCRUidBluetoothEngine`. -/
def flag (store : Store) : Int :=
  store KCRUidBluetoothEngine 8

/-- Completion of a call from its leave code. -/
def completion : Option Int → Except Fault Unit
  | none => Except.ok ()
  | some code => Except.error (Fault.leave code)

/-- Calls of `CRepository::NewL`. -/
def Event.isOpen : Event → Bool
  | Event.repositoryNewL _ _ => true
  | _ => false

/-- Calls of `CRepository::Get`. -/
def Event.isGet : Event → Bool
  | Event.get _ _ _ _ => true
  | _ => false

/-- Calls of `CRepository::Set`. -/
def Event.isSet : Event → Bool
  | Event.set _ _ _ _ => true
  | _ => false

/-- Calls of `CAknGlobalNote::ShowNoteL`. -/
def Event.isNote : Event → Bool
  | Event.showNote _ _ _ => true
  | _ => false

/-- Calls of `CAknGlobalNote::ShowNoteL` that left. -/
def Event.isFailedNote : Event → Bool
  | Event.showNote _ _ (some _) => true
  | _ => false

/-- Destructions of owned objects. -/
def Event.isDestroy : Event → Bool
  | Event.destroy _ => true
  | _ => false

/-- The store opened, `Get(8)` returned `KErrNone` with `v` in its output
argument, and `Set(8, x)` returned `KErrNone`. -/
def Succeeded (tr : List Event) (v x : Int) : Prop :=
  Event.repositoryNewL KCRUidBluetoothEngine none ∈ tr ∧
  Event.get KCRUidBluetoothEngine 8 KErrNone v ∈ tr ∧
  Event.set KCRUidBluetoothEngine 8 x KErrNone ∈ tr

instance (tr : List Event) (v x : Int) : Decidable (Succeeded tr v x) := by
  unfold Succeeded
  infer_instance

/-- The environment lets the presenter be created, the store open, `Get`
return `KErrNone` and `Set` return `KErrNone`. -/
def Env.Succeeds (env : Env) : Prop :=
  env.dialogNewL = none ∧ env.repositoryNewL = none ∧ env.getErr = KErrNone ∧
  env.setErr = KErrNone

instance (env : Env) : Decidable env.Succeeds := by
  unfold Env.Succeeds
  infer_instance

/-- An environment in which every call succeeds. -/
def okEnv : Env :=
  { dialogNewL := none, repositoryNewL := none, getErr := 0, getOut := fun old => old,
    setErr := 0, failedSetStores := fun old _ => old, showNoteL := none }

/-- Repository contents in which every key holds `v`. -/
def constStore (v : Int) : Store :=
  fun _ _ => v

/-! ## The five paths of `MainL` -/

theorem runMainL_dialogFail (env : Env) (store : Store) (code : Int)
    (hd : env.dialogNewL = some code) :
    runMainL env store = (Except.error (Fault.leave code),
      { store := store, trace := [Event.dialogNewL (some code)], cleanupStack := [[]] }) := by
  obtain ⟨d, r, ge, go, se, fs, sn⟩ := env
  subst hd
  rfl

open TAknGlobalNoteType in
theorem runMainL_openFail (env : Env) (store : Store) (code : Int)
    (hd : env.dialogNewL = none) (hr : env.repositoryNewL = some code) :
    runMainL env store = (completion env.showNoteL,
      { store := store,
        trace := [Event.dialogNewL none,
          Event.repositoryNewL KCRUidBluetoothEngine (some code),
          Event.showNote EAknGlobalErrorNote "Failed to open repository!" env.showNoteL,
          Event.destroy Handle.dialog],
        cleanupStack := [[]] }) := by
  obtain ⟨d, r, ge, go, se, fs, sn⟩ := env
  subst hd hr
  cases sn <;> rfl

open TAknGlobalNoteType in
theorem runMainL_getFail (env : Env) (store : Store)
    (hd : env.dialogNewL = none) (hr : env.repositoryNewL = none)
    (hg : env.getErr ≠ KErrNone) :
    runMainL env store = (completion env.showNoteL,
      { store := store,
        trace := [Event.dialogNewL none,
          Event.repositoryNewL KCRUidBluetoothEngine none,
          Event.get KCRUidBluetoothEngine 8 env.getErr (env.getOut 0),
          Event.showNote EAknGlobalErrorNote "CRepository4All patch not enabled!"
            env.showNoteL,
          Event.destroy Handle.cenrep, Event.destroy Handle.dialog],
        cleanupStack := [[]] }) := by
  obtain ⟨d, r, ge, go, se, fs, sn⟩ := env
  subst hd hr
  simp only at hg
  cases sn <;>
    simp [runMainL, entry, MainL, Prog.run, bind, pure, emit, User.Leave, CleanupStack.PushL,
      CleanupStack.PopAndDestroy, TRAP_IGNORE, CAknGlobalNote.NewL, CRepository.NewL,
      CRepository.Get, CAknGlobalNote.ShowNoteL, hg, completion]

open TAknGlobalNoteType in
theorem runMainL_setFail (env : Env) (store : Store)
    (hd : env.dialogNewL = none) (hr : env.repositoryNewL = none)
    (hg : env.getErr = KErrNone) (hs : env.setErr ≠ KErrNone) :
    runMainL env store = (completion env.showNoteL,
      { store := store.write KCRUidBluetoothEngine 8
          (env.failedSetStores (flag store) (if flag store = 1 then 0 else 1)),
        trace := [Event.dialogNewL none,
          Event.repositoryNewL KCRUidBluetoothEngine none,
          Event.get KCRUidBluetoothEngine 8 KErrNone (flag store),
          Event.set KCRUidBluetoothEngine 8 (if flag store = 1 then 0 else 1) env.setErr,
          Event.showNote EAknGlobalErrorNote "CRepository4All patch not enabled!"
            env.showNoteL,
          Event.destroy Handle.cenrep, Event.destroy Handle.dialog],
        cleanupStack := [[]] }) := by
  obtain ⟨d, r, ge, go, se, fs, sn⟩ := env
  subst hd hr
  simp only at hg hs
  subst hg
  cases sn <;>
    simp [runMainL, entry, MainL, Prog.run, bind, pure, emit, User.Leave, CleanupStack.PushL,
      CleanupStack.PopAndDestroy, TRAP_IGNORE, CAknGlobalNote.NewL, CRepository.NewL,
      CRepository.Get, CRepository.Set, CAknGlobalNote.ShowNoteL, hs, completion, flag]

open TAknGlobalNoteType in
theorem runMainL_success (env : Env) (store : Store)
    (hd : env.dialogNewL = none) (hr : env.repositoryNewL = none)
    (hg : env.getErr = KErrNone) (hs : env.setErr = KErrNone) :
    runMainL env store = (completion env.showNoteL,
      { store := store.write KCRUidBluetoothEngine 8 (if flag store = 1 then 0 else 1),
        trace := [Event.dialogNewL none,
          Event.repositoryNewL KCRUidBluetoothEngine none,
          Event.get KCRUidBluetoothEngine 8 KErrNone (flag store),
          Event.set KCRUidBluetoothEngine 8 (if flag store = 1 then 0 else 1) KErrNone,
          Event.showNote EAknGlobalInformationNote
            (if flag store = 1 then "Bluetooth legacy volume control disabled"
             else "Bluetooth legacy volume control enabled") env.showNoteL,
          Event.destroy Handle.cenrep, Event.destroy Handle.dialog],
        cleanupStack := [[]] }) := by
  obtain ⟨d, r, ge, go, se, fs, sn⟩ := env
  subst hd hr
  simp only at hg hs
  subst hg hs
  by_cases hv : store KCRUidBluetoothEngine 8 = 1 <;> cases sn <;>
    simp [runMainL, entry, MainL, Prog.run, bind, pure, emit, User.Leave, CleanupStack.PushL,
      CleanupStack.PopAndDestroy, TRAP_IGNORE, CAknGlobalNote.NewL, CRepository.NewL,
      CRepository.Get, CRepository.Set, CAknGlobalNote.ShowNoteL, completion, flag, hv]

/-- Every environment selects one of the five paths. -/
theorem env_paths (env : Env) :
    (∃ code, env.dialogNewL = some code) ∨
    (env.dialogNewL = none ∧ ∃ code, env.repositoryNewL = some code) ∨
    (env.dialogNewL = none ∧ env.repositoryNewL = none ∧ env.getErr ≠ KErrNone) ∨
    (env.dialogNewL = none ∧ env.repositoryNewL = none ∧ env.getErr = KErrNone ∧
      env.setErr ≠ KErrNone) ∨
    (env.dialogNewL = none ∧ env.repositoryNewL = none ∧ env.getErr = KErrNone ∧
      env.setErr = KErrNone) := by
  cases hd : env.dialogNewL with
  | some code => exact Or.inl ⟨code, rfl⟩
  | none =>
    cases hr : env.repositoryNewL with
    | some code => exact Or.inr (Or.inl ⟨rfl, code, rfl⟩)
    | none =>
      by_cases hg : env.getErr = KErrNone
      · by_cases hs : env.setErr = KErrNone
        · exact Or.inr (Or.inr (Or.inr (Or.inr ⟨rfl, rfl, hg, hs⟩)))
        · exact Or.inr (Or.inr (Or.inr (Or.inl ⟨rfl, rfl, hg, hs⟩)))
      · exact Or.inr (Or.inr (Or.inl ⟨rfl, rfl, hg⟩))

/-- A run that opened the store, read and wrote successfully took the success
path, read the Flag and wrote its toggle. -/
theorem succeeded_path (env : Env) (store : Store) (v x : Int)
    (h : Succeeded (traceOf env store) v x) :
    env.dialogNewL = none ∧ env.repositoryNewL = none ∧ env.getErr = KErrNone ∧
    env.setErr = KErrNone ∧ v = flag store ∧ x = (if flag store = 1 then 0 else 1) := by
  unfold Succeeded at h
  rcases env_paths env with ⟨c, hd⟩ | ⟨hd, c, hr⟩ | ⟨hd, hr, hg⟩ | ⟨hd, hr, hg, hs⟩ |
    ⟨hd, hr, hg, hs⟩
  · simp [traceOf, runMainL_dialogFail env store c hd] at h
  · simp [traceOf, runMainL_openFail env store c hd hr] at h
  · simp [traceOf, runMainL_getFail env store hd hr hg] at h
  · simp [traceOf, runMainL_setFail env store hd hr hg hs] at h
    exact absurd h.2.2.symm hs
  · simp [traceOf, runMainL_success env store hd hr hg hs] at h
    exact ⟨hd, hr, hg, hs, h.1, h.2⟩

/-- The Flag after a write of `value` to key `8`. -/
theorem flag_write (store : Store) (value : Int) :
    flag (store.write KCRUidBluetoothEngine 8 value) = value := by
  simp [flag, Store.write]

/-! ## The toggle -/

/-- C1: for every initial Flag value `v`, when the store opens, `Get(8)` succeeds
(returning `v`) and `Set` succeeds, the run makes exactly one `Get` call, which
returns `v`, and exactly one `Set` call, on key `8` of namespace `0x10204DAB`; the
value written, which is the Flag after the run, is `0` if `v = 1` and `1` if
`v ≠ 1`. -/
theorem toggle_writes_complement (env : Env) (store : Store) (v : Int)
    (henv : env.Succeeds) (hv : flag store = v) :
    Succeeded (traceOf env store) v (if v = 1 then 0 else 1) ∧
    (traceOf env store).filter Event.isGet =
      [Event.get KCRUidBluetoothEngine 8 KErrNone v] ∧
    (traceOf env store).filter Event.isSet =
      [Event.set KCRUidBluetoothEngine 8 (if v = 1 then 0 else 1) KErrNone] ∧
    flag (storeAfter env store) = (if v = 1 then 0 else 1) ∧
    (v = 1 → flag (storeAfter env store) = 0) ∧
    (v ≠ 1 → flag (storeAfter env store) = 1) := by
  obtain ⟨hd, hr, hg, hs⟩ := henv
  subst hv
  have hflag : flag (storeAfter env store) = (if flag store = 1 then 0 else 1) := by
    simp [storeAfter, runMainL_success env store hd hr hg hs, flag_write]
  refine ⟨?_, ?_, ?_, hflag, ?_, ?_⟩
  · simp [Succeeded, traceOf, runMainL_success env store hd hr hg hs]
  · simp [traceOf, runMainL_success env store hd hr hg hs, Event.isGet]
  · simp [traceOf, runMainL_success env store hd hr hg hs, Event.isSet]
  · intro h1
    rw [hflag, if_pos h1]
  · intro h1
    rw [hflag, if_neg h1]

/-- Witness of C1 at Flags `1`, `0` and `-3`: the Flag becomes `0`, `1` and `1`,
and the one write is `Set(8, 0)`, `Set(8, 1)` and `Set(8, 1)`. -/
theorem toggle_writes_complement_witness :
    (okEnv.Succeeds ∧ flag (constStore 1) = 1 ∧ flag (constStore 0) = 0 ∧
      flag (constStore (-3)) = -3) ∧
    (flag (storeAfter okEnv (constStore 1)) = 0 ∧
      (traceOf okEnv (constStore 1)).filter Event.isSet =
        [Event.set KCRUidBluetoothEngine 8 (if (1 : Int) = 1 then 0 else 1) KErrNone]) ∧
    (flag (storeAfter okEnv (constStore 0)) = 1 ∧
      (traceOf okEnv (constStore 0)).filter Event.isSet =
        [Event.set KCRUidBluetoothEngine 8 (if (0 : Int) = 1 then 0 else 1) KErrNone]) ∧
    (flag (storeAfter okEnv (constStore (-3))) = 1 ∧
      (traceOf okEnv (constStore (-3))).filter Event.isSet =
        [Event.set KCRUidBluetoothEngine 8 (if (-3 : Int) = 1 then 0 else 1) KErrNone]) :=
  have h1 := toggle_writes_complement okEnv (constStore 1) 1 (by decide) (by decide)
  have h0 := toggle_writes_complement okEnv (constStore 0) 0 (by decide) (by decide)
  have hn := toggle_writes_complement okEnv (constStore (-3)) (-3) (by decide) (by decide)
  ⟨by decide, ⟨h1.2.2.2.2.1 (by decide), h1.2.2.1⟩, ⟨h0.2.2.2.2.2 (by decide), h0.2.2.1⟩,
    ⟨hn.2.2.2.2.2 (by decide), hn.2.2.1⟩⟩

open TAknGlobalNoteType in
/-- C2: for every pre-toggle value `v`, when open, read and write all succeed, the
one `ShowNoteL` call of `MainL` is an information note whose text is chosen by the
value `v` read before the write: "Bluetooth legacy volume control disabled" if
`v = 1`, "Bluetooth legacy volume control enabled" for every `v ≠ 1`; no error
note is shown. -/
theorem note_text_from_value_read (env : Env) (store : Store) (v : Int)
    (henv : env.Succeeds) (hv : flag store = v) :
    (traceOf env store).filter Event.isGet =
      [Event.get KCRUidBluetoothEngine 8 KErrNone v] ∧
    (v = 1 →
      (traceOf env store).filter Event.isNote =
        [Event.showNote EAknGlobalInformationNote
          "Bluetooth legacy volume control disabled" env.showNoteL]) ∧
    (v ≠ 1 →
      (traceOf env store).filter Event.isNote =
        [Event.showNote EAknGlobalInformationNote
          "Bluetooth legacy volume control enabled" env.showNoteL]) ∧
    (∀ text leave, Event.showNote EAknGlobalErrorNote text leave ∉ traceOf env store) := by
  obtain ⟨hd, hr, hg, hs⟩ := henv
  subst hv
  refine ⟨?_, ?_, ?_, ?_⟩
  · simp [traceOf, runMainL_success env store hd hr hg hs, Event.isGet]
  · intro h1
    simp [traceOf, runMainL_success env store hd hr hg hs, Event.isNote, h1]
  · intro h1
    simp [traceOf, runMainL_success env store hd hr hg hs, Event.isNote, h1]
  · simp [traceOf, runMainL_success env store hd hr hg hs]

open TAknGlobalNoteType in
/-- Witness of C2 at Flags `1`, `0` and `7`: the note says "disabled", "enabled"
and "enabled". -/
theorem note_text_from_value_read_witness :
    (okEnv.Succeeds ∧ flag (constStore 1) = 1 ∧ flag (constStore 0) = 0 ∧
      flag (constStore 7) = 7) ∧
    (traceOf okEnv (constStore 1)).filter Event.isNote =
      [Event.showNote EAknGlobalInformationNote
        "Bluetooth legacy volume control disabled" okEnv.showNoteL] ∧
    (traceOf okEnv (constStore 0)).filter Event.isNote =
      [Event.showNote EAknGlobalInformationNote
        "Bluetooth legacy volume control enabled" okEnv.showNoteL] ∧
    (traceOf okEnv (constStore 7)).filter Event.isNote =
      [Event.showNote EAknGlobalInformationNote
        "Bluetooth legacy volume control enabled" okEnv.showNoteL] :=
  ⟨by decide,
    (note_text_from_value_read okEnv (constStore 1) 1 (by decide) (by decide)).2.1
      (by decide),
    (note_text_from_value_read okEnv (constStore 0) 0 (by decide) (by decide)).2.2.1
      (by decide),
    (note_text_from_value_read okEnv (constStore 7) 7 (by decide) (by decide)).2.2.1
      (by decide)⟩

/-! ## The error paths -/

open TAknGlobalNoteType in
/-- C4: if `CRepository::NewL` leaves, then whatever the store holds `MainL` makes
no `Get` and no `Set` call, the store is unchanged, the only note shown is the one
error note "Failed to open repository!", and `MainL` completes as that
`ShowNoteL` call does: the leave of `NewL` is not propagated. -/
theorem open_failure_reported (env : Env) (store : Store) (code : Int)
    (h : Event.repositoryNewL KCRUidBluetoothEngine (some code) ∈ traceOf env store) :
    (traceOf env store).filter Event.isGet = [] ∧
    (traceOf env store).filter Event.isSet = [] ∧
    storeAfter env store = store ∧
    (traceOf env store).filter Event.isNote =
      [Event.showNote EAknGlobalErrorNote "Failed to open repository!" env.showNoteL] ∧
    (runMainL env store).1 = completion env.showNoteL := by
  rcases env_paths env with ⟨c, hd⟩ | ⟨hd, c, hr⟩ | ⟨hd, hr, hg⟩ | ⟨hd, hr, hg, hs⟩ |
    ⟨hd, hr, hg, hs⟩
  · simp [traceOf, runMainL_dialogFail env store c hd] at h
  · simp [traceOf, storeAfter, runMainL_openFail env store c hd hr, Event.isGet, Event.isSet,
      Event.isNote]
  · simp [traceOf, runMainL_getFail env store hd hr hg] at h
  · simp [traceOf, runMainL_setFail env store hd hr hg hs] at h
  · simp [traceOf, runMainL_success env store hd hr hg hs] at h

/-- Witness of C4: `CRepository::NewL` leaves with `-1`; the store is unchanged
and `MainL` returns normally. -/
theorem open_failure_reported_witness :
    Event.repositoryNewL KCRUidBluetoothEngine (some (-1)) ∈
      traceOf { okEnv with repositoryNewL := some (-1) } (constStore 1) ∧
    storeAfter { okEnv with repositoryNewL := some (-1) } (constStore 1) = constStore 1 ∧
    (runMainL { okEnv with repositoryNewL := some (-1) } (constStore 1)).1 = Except.ok () :=
  have h := open_failure_reported { okEnv with repositoryNewL := some (-1) } (constStore 1) (-1)
    (by decide)
  ⟨by decide, h.2.2.1, h.2.2.2.2⟩

open TAknGlobalNoteType in
/-- C5: if the store opens and `Get(8)` returns a non-zero error code, then
whatever the store holds and whatever is left in the output argument, `MainL`
makes no `Set` call, the store is unchanged, and the only note shown is the one
error note "CRepository4All patch not enabled!". -/
theorem read_failure_reported (env : Env) (store : Store) (err out : Int)
    (hopen : Event.repositoryNewL KCRUidBluetoothEngine none ∈ traceOf env store)
    (hget : Event.get KCRUidBluetoothEngine 8 err out ∈ traceOf env store)
    (herr : err ≠ KErrNone) :
    (traceOf env store).filter Event.isSet = [] ∧
    storeAfter env store = store ∧
    (traceOf env store).filter Event.isNote =
      [Event.showNote EAknGlobalErrorNote "CRepository4All patch not enabled!"
        env.showNoteL] := by
  rcases env_paths env with ⟨c, hd⟩ | ⟨hd, c, hr⟩ | ⟨hd, hr, hg⟩ | ⟨hd, hr, hg, hs⟩ |
    ⟨hd, hr, hg, hs⟩
  · simp [traceOf, runMainL_dialogFail env store c hd] at hopen
  · simp [traceOf, runMainL_openFail env store c hd hr] at hopen
  · simp [traceOf, storeAfter, runMainL_getFail env store hd hr hg, Event.isSet, Event.isNote]
  · simp [traceOf, runMainL_setFail env store hd hr hg hs] at hget
    exact absurd hget.1 herr
  · simp [traceOf, runMainL_success env store hd hr hg hs] at hget
    exact absurd hget.1 herr

/-- Witness of C5: `Get` returns `-46` and leaves `1` in its output argument. -/
theorem read_failure_reported_witness :
    Event.repositoryNewL KCRUidBluetoothEngine none ∈
      traceOf { okEnv with getErr := -46, getOut := fun _ => 1 } (constStore 1) ∧
    Event.get KCRUidBluetoothEngine 8 (-46) 1 ∈
      traceOf { okEnv with getErr := -46, getOut := fun _ => 1 } (constStore 1) ∧
    (traceOf { okEnv with getErr := -46, getOut := fun _ => 1 } (constStore 1)).filter
      Event.isSet = [] ∧
    storeAfter { okEnv with getErr := -46, getOut := fun _ => 1 } (constStore 1) =
      constStore 1 :=
  have h := read_failure_reported { okEnv with getErr := -46, getOut := fun _ => 1 }
    (constStore 1) (-46) 1 (by decide) (by decide) (by decide)
  ⟨by decide, by decide, h.1, h.2.1⟩

open TAknGlobalNoteType in
/-- C6: if the store opens and `Get(8)` succeeds with any value `v`, `MainL` makes
exactly one `Set` call, `Set(8, v == 1 ? 0 : 1)`; and if that call returns a
non-zero error code, the only note shown is the error note
"CRepository4All patch not enabled!" and no information note is shown. -/
theorem write_attempted_once (env : Env) (store : Store) (v : Int)
    (hopen : Event.repositoryNewL KCRUidBluetoothEngine none ∈ traceOf env store)
    (hget : Event.get KCRUidBluetoothEngine 8 KErrNone v ∈ traceOf env store) :
    (traceOf env store).filter Event.isSet =
      [Event.set KCRUidBluetoothEngine 8 (if v = 1 then 0 else 1) env.setErr] ∧
    (env.setErr ≠ KErrNone →
      (traceOf env store).filter Event.isNote =
        [Event.showNote EAknGlobalErrorNote "CRepository4All patch not enabled!"
          env.showNoteL] ∧
      ∀ text leave,
        Event.showNote EAknGlobalInformationNote text leave ∉ traceOf env store) := by
  rcases env_paths env with ⟨c, hd⟩ | ⟨hd, c, hr⟩ | ⟨hd, hr, hg⟩ | ⟨hd, hr, hg, hs⟩ |
    ⟨hd, hr, hg, hs⟩
  · simp [traceOf, runMainL_dialogFail env store c hd] at hopen
  · simp [traceOf, runMainL_openFail env store c hd hr] at hopen
  · simp [traceOf, runMainL_getFail env store hd hr hg] at hget
    exact absurd hget.1.symm hg
  · simp [traceOf, runMainL_setFail env store hd hr hg hs] at hget
    subst hget
    simp [traceOf, runMainL_setFail env store hd hr hg hs, Event.isSet, Event.isNote]
  · simp [traceOf, runMainL_success env store hd hr hg hs] at hget
    subst hget
    simp [traceOf, runMainL_success env store hd hr hg hs, Event.isSet, hs]

open TAknGlobalNoteType in
/-- Witness of C6: the read returns `1`, the write of `0` returns `-46`. -/
theorem write_attempted_once_witness :
    Event.repositoryNewL KCRUidBluetoothEngine none ∈
      traceOf { okEnv with setErr := -46 } (constStore 1) ∧
    Event.get KCRUidBluetoothEngine 8 KErrNone 1 ∈
      traceOf { okEnv with setErr := -46 } (constStore 1) ∧
    (traceOf { okEnv with setErr := -46 } (constStore 1)).filter Event.isSet =
      [Event.set KCRUidBluetoothEngine 8 (if (1 : Int) = 1 then 0 else 1) (-46)] ∧
    (traceOf { okEnv with setErr := -46 } (constStore 1)).filter Event.isNote =
      [Event.showNote EAknGlobalErrorNote "CRepository4All patch not enabled!" none] :=
  have h := write_attempted_once { okEnv with setErr := -46 } (constStore 1) 1
    (by decide) (by decide)
  ⟨by decide, by decide, h.1, (h.2 (by decide)).1⟩

/-! ## Footprint, exit code and release of handles -/

/-- The process is `MainL` under the trap of `E32Main`. -/
theorem runE32Main_eq (env : Env) (store : Store) :
    runE32Main env store =
      match runMainL env store with
      | (Except.ok _, t) => (Except.ok KErrNone, { t with cleanupStack := [] })
      | (Except.error (Fault.leave code), t) => (Except.ok code, { t with cleanupStack := [] })
      | (Except.error Fault.panicked, t) => (Except.error Fault.panicked, t) := by
  rcases env_paths env with ⟨c, hd⟩ | ⟨hd, c, hr⟩ | ⟨hd, hr, hg⟩ | ⟨hd, hr, hg, hs⟩ |
    ⟨hd, hr, hg, hs⟩
  · have h := runMainL_dialogFail env store c hd
    simp only [runMainL, entry, Prog.run] at h
    simp [runE32Main, E32Main, Prog.run, bind, pure, TRAPD, CTrapCleanup.New,
      CTrapCleanup.delete, runMainL, entry, h]
  · have h := runMainL_openFail env store c hd hr
    simp only [runMainL, entry, Prog.run] at h
    cases hn : env.showNoteL <;>
      simp [runE32Main, E32Main, Prog.run, bind, pure, TRAPD, CTrapCleanup.New,
        CTrapCleanup.delete, runMainL, entry, h, hn, completion]
  · have h := runMainL_getFail env store hd hr hg
    simp only [runMainL, entry, Prog.run] at h
    cases hn : env.showNoteL <;>
      simp [runE32Main, E32Main, Prog.run, bind, pure, TRAPD, CTrapCleanup.New,
        CTrapCleanup.delete, runMainL, entry, h, hn, completion]
  · have h := runMainL_setFail env store hd hr hg hs
    simp only [runMainL, entry, Prog.run] at h
    cases hn : env.showNoteL <;>
      simp [runE32Main, E32Main, Prog.run, bind, pure, TRAPD, CTrapCleanup.New,
        CTrapCleanup.delete, runMainL, entry, h, hn, completion]
  · have h := runMainL_success env store hd hr hg hs
    simp only [runMainL, entry, Prog.run] at h
    cases hn : env.showNoteL <;>
      simp [runE32Main, E32Main, Prog.run, bind, pure, TRAPD, CTrapCleanup.New,
        CTrapCleanup.delete, runMainL, entry, h, hn, completion]

/-- When the presenter was created and no `ShowNoteL` call left, the environment
lets `ShowNoteL` return. -/
theorem note_returned (env : Env) (store : Store)
    (hd : Event.dialogNewL none ∈ traceOf env store)
    (hn : (traceOf env store).filter Event.isFailedNote = []) :
    env.showNoteL = none := by
  cases hsn : env.showNoteL with
  | none => rfl
  | some code =>
    exfalso
    rcases env_paths env with ⟨c, hc⟩ | ⟨hc, c, hr⟩ | ⟨hc, hr, hg⟩ | ⟨hc, hr, hg, hs⟩ |
      ⟨hc, hr, hg, hs⟩
    · simp [traceOf, runMainL_dialogFail env store c hc] at hd
    · simp [traceOf, runMainL_openFail env store c hc hr, Event.isFailedNote, hsn] at hn
    · simp [traceOf, runMainL_getFail env store hc hr hg, Event.isFailedNote, hsn] at hn
    · simp [traceOf, runMainL_setFail env store hc hr hg hs, Event.isFailedNote, hsn] at hn
    · simp [traceOf, runMainL_success env store hc hr hg hs, Event.isFailedNote, hsn] at hn

/-- C7: given that the presenter was created and that showing a note does not
fail, for every outcome of store open, `Get` and `Set` and every store content one
run of `MainL` shows exactly one note (one `ShowNoteL` call, which returns),
makes at most one `Get` and at most one `Set` call, both on key `8` of namespace
`0x10204DAB`, opens no other namespace, and leaves every other entry of the store
as it was. -/
theorem mainL_footprint (env : Env) (store : Store)
    (hd : Event.dialogNewL none ∈ traceOf env store)
    (hn : (traceOf env store).filter Event.isFailedNote = []) :
    (∃ type text,
      (traceOf env store).filter Event.isNote = [Event.showNote type text none]) ∧
    ((traceOf env store).filter Event.isGet).length ≤ 1 ∧
    ((traceOf env store).filter Event.isSet).length ≤ 1 ∧
    (∀ uid key err out, Event.get uid key err out ∈ traceOf env store →
      uid = KCRUidBluetoothEngine ∧ key = 8) ∧
    (∀ uid key value err, Event.set uid key value err ∈ traceOf env store →
      uid = KCRUidBluetoothEngine ∧ key = 8) ∧
    (∀ uid leave, Event.repositoryNewL uid leave ∈ traceOf env store →
      uid = KCRUidBluetoothEngine) ∧
    (∀ uid key, ¬(uid = KCRUidBluetoothEngine ∧ key = 8) →
      storeAfter env store uid key = store uid key) := by
  have hsn : env.showNoteL = none := note_returned env store hd hn
  rcases env_paths env with ⟨c, hc⟩ | ⟨hc, c, hr⟩ | ⟨hc, hr, hg⟩ | ⟨hc, hr, hg, hs⟩ |
    ⟨hc, hr, hg, hs⟩
  · simp [traceOf, runMainL_dialogFail env store c hc] at hd
  · simp [traceOf, storeAfter, runMainL_openFail env store c hc hr, Event.isNote, Event.isGet,
      Event.isSet, hsn]
  · simp [traceOf, storeAfter, runMainL_getFail env store hc hr hg, Event.isNote, Event.isGet,
      Event.isSet, hsn]
    intro uid key err out hu hk _ _
    exact ⟨hu, hk⟩
  · simp only [traceOf, storeAfter, runMainL_setFail env store hc hr hg hs]
    simp [Event.isNote, Event.isGet, Event.isSet, hsn]
    refine ⟨fun uid key err out hu hk _ _ => ⟨hu, hk⟩,
      fun uid key value err hu hk _ _ => ⟨hu, hk⟩, ?_⟩
    intro uid key hk
    simp only [Store.write]
    rw [if_neg]
    intro h
    exact hk h.1 h.2
  · simp only [traceOf, storeAfter, runMainL_success env store hc hr hg hs]
    simp [Event.isNote, Event.isGet, Event.isSet, hsn]
    refine ⟨fun uid key err out hu hk _ _ => ⟨hu, hk⟩,
      fun uid key value err hu hk _ _ => ⟨hu, hk⟩, ?_⟩
    intro uid key hk
    simp only [Store.write]
    rw [if_neg]
    intro h
    exact hk h.1 h.2

/-- Witness of C7 on the path where the write fails. -/
theorem mainL_footprint_witness :
    Event.dialogNewL none ∈ traceOf { okEnv with setErr := -46 } (constStore 0) ∧
    (traceOf { okEnv with setErr := -46 } (constStore 0)).filter Event.isFailedNote = [] ∧
    ((traceOf { okEnv with setErr := -46 } (constStore 0)).filter Event.isSet).length ≤ 1 :=
  ⟨by decide, by decide,
    (mainL_footprint { okEnv with setErr := -46 } (constStore 0) (by decide) (by decide)).2.2.1⟩

/-- C8: `E32Main` returns `0` whenever the presenter was created and showing the
note did not fail, whatever the outcomes of store open, `Get` and `Set`.  If the
creation of the presenter leaves with code `e`, `E32Main` returns `e` (non-zero
when `e` is), no note is shown and no store open, `Get` or `Set` is attempted. -/
theorem e32Main_exit_code (env : Env) (store : Store) :
    (Event.dialogNewL none ∈ (runE32Main env store).2.trace →
      (runE32Main env store).2.trace.filter Event.isFailedNote = [] →
      (runE32Main env store).1 = Except.ok 0) ∧
    (∀ e, Event.dialogNewL (some e) ∈ (runE32Main env store).2.trace →
      (runE32Main env store).1 = Except.ok e ∧
      (e ≠ 0 → (runE32Main env store).1 ≠ Except.ok 0) ∧
      (runE32Main env store).2.trace.filter Event.isNote = [] ∧
      (runE32Main env store).2.trace.filter Event.isOpen = [] ∧
      (runE32Main env store).2.trace.filter Event.isGet = [] ∧
      (runE32Main env store).2.trace.filter Event.isSet = []) := by
  rw [runE32Main_eq]
  rcases env_paths env with ⟨c, hc⟩ | ⟨hc, c, hr⟩ | ⟨hc, hr, hg⟩ | ⟨hc, hr, hg, hs⟩ |
    ⟨hc, hr, hg, hs⟩
  · simp [runMainL_dialogFail env store c hc, Event.isNote, Event.isOpen, Event.isGet,
      Event.isSet]
  · cases hn : env.showNoteL <;>
      simp [runMainL_openFail env store c hc hr, hn, completion, Event.isFailedNote, KErrNone]
  · cases hn : env.showNoteL <;>
      simp [runMainL_getFail env store hc hr hg, hn, completion, Event.isFailedNote, KErrNone]
  · cases hn : env.showNoteL <;>
      simp [runMainL_setFail env store hc hr hg hs, hn, completion, Event.isFailedNote,
        KErrNone]
  · cases hn : env.showNoteL <;>
      simp [runMainL_success env store hc hr hg hs, hn, completion, Event.isFailedNote,
        KErrNone]

/-- Witness of C8: exit code `0` when the store cannot be opened, exit code `-4`
when the presenter cannot be created. -/
theorem e32Main_exit_code_witness :
    (runE32Main { okEnv with repositoryNewL := some (-1) } (constStore 0)).1 = Except.ok 0 ∧
    (runE32Main { okEnv with dialogNewL := some (-4) } (constStore 0)).1 = Except.ok (-4) :=
  ⟨(e32Main_exit_code { okEnv with repositoryNewL := some (-1) } (constStore 0)).1
      (by decide) (by decide),
    ((e32Main_exit_code { okEnv with dialogNewL := some (-4) } (constStore 0)).2 (-4) (by decide)).1⟩

/-- C9: on every exit path of `MainL`, by return or by leave, every handle that
was acquired is released exactly once: the presenter is released when it was
created, the store handle is released exactly when the store was opened, the store
handle before the presenter; every release comes after all calls to the
collaborators; the cleanup stack is left as it was found and is never misused. -/
theorem mainL_releases_handles (env : Env) (store : Store) :
    (traceOf env store).filter Event.isDestroy =
      (if Event.repositoryNewL KCRUidBluetoothEngine none ∈ traceOf env store
        then [Event.destroy Handle.cenrep] else []) ++
      (if Event.dialogNewL none ∈ traceOf env store
        then [Event.destroy Handle.dialog] else []) ∧
    traceOf env store =
      (traceOf env store).filter (fun e => !e.isDestroy) ++
      (traceOf env store).filter Event.isDestroy ∧
    (runMainL env store).2.cleanupStack = [[]] ∧
    (runMainL env store).1 ≠ Except.error Fault.panicked := by
  rcases env_paths env with ⟨c, hc⟩ | ⟨hc, c, hr⟩ | ⟨hc, hr, hg⟩ | ⟨hc, hr, hg, hs⟩ |
    ⟨hc, hr, hg, hs⟩
  · simp [traceOf, runMainL_dialogFail env store c hc, Event.isDestroy]
  · cases hn : env.showNoteL <;>
      simp [traceOf, runMainL_openFail env store c hc hr, Event.isDestroy, completion, hn]
  · cases hn : env.showNoteL <;>
      simp [traceOf, runMainL_getFail env store hc hr hg, Event.isDestroy, completion, hn]
  · cases hn : env.showNoteL <;>
      simp [traceOf, runMainL_setFail env store hc hr hg hs, Event.isDestroy, completion, hn]
  · cases hn : env.showNoteL <;>
      simp [traceOf, runMainL_success env store hc hr hg hs, Event.isDestroy, completion, hn]

/-! ## Successive runs -/

/-- The Flag after a successful run is the toggle of the Flag before it. -/
theorem flag_after_success (env : Env) (store : Store) (v x : Int)
    (h : Succeeded (traceOf env store) v x) :
    flag (storeAfter env store) = (if flag store = 1 then 0 else 1) := by
  obtain ⟨hd, hr, hg, hs, -, -⟩ := succeeded_path env store v x h
  simp [storeAfter, runMainL_success env store hd hr hg hs, flag_write]

/-- C3, refuted as stated: from a Flag of `2` two successive successful runs leave
the Flag at `0`, not at `2`. -/
theorem two_runs_from_two_do_not_restore :
    Succeeded (traceOf okEnv (constStore 2)) 2 1 ∧
    Succeeded (traceOf okEnv (storeAfter okEnv (constStore 2))) 1 0 ∧
    flag (constStore 2) = 2 ∧
    flag (storeAfter okEnv (storeAfter okEnv (constStore 2))) = 0 ∧
    flag (storeAfter okEnv (storeAfter okEnv (constStore 2))) ≠ flag (constStore 2) := by
  decide

/-- C3, amended: when the Flag is `0` or `1`, two successive runs in which store
open, read and write all succeed return the Flag to its original value. -/
theorem two_runs_restore_boolean_flag (env₁ env₂ : Env) (store : Store)
    (v₁ x₁ v₂ x₂ : Int)
    (h₁ : Succeeded (traceOf env₁ store) v₁ x₁)
    (h₂ : Succeeded (traceOf env₂ (storeAfter env₁ store)) v₂ x₂)
    (hb : flag store = 0 ∨ flag store = 1) :
    flag (storeAfter env₂ (storeAfter env₁ store)) = flag store := by
  rw [flag_after_success env₂ _ v₂ x₂ h₂, flag_after_success env₁ store v₁ x₁ h₁]
  rcases hb with hb | hb <;> simp [hb]

/-- Witness of the amended C3 at a Flag of `0`. -/
theorem two_runs_restore_boolean_flag_witness :
    Succeeded (traceOf okEnv (constStore 0)) 0 1 ∧
    Succeeded (traceOf okEnv (storeAfter okEnv (constStore 0))) 1 0 ∧
    flag (storeAfter okEnv (storeAfter okEnv (constStore 0))) = flag (constStore 0) :=
  ⟨by decide, by decide,
    two_runs_restore_boolean_flag okEnv okEnv (constStore 0) 0 1 1 0 (by decide) (by decide)
      (by decide)⟩

/-- The Flag after a run in which every call succeeds is the toggle of the Flag
before it. -/
theorem flag_after_succeeds (env : Env) (store : Store) (henv : env.Succeeds) :
    flag (storeAfter env store) = (if flag store = 1 then 0 else 1) := by
  obtain ⟨hd, hr, hg, hs⟩ := henv
  simp [storeAfter, runMainL_success env store hd hr hg hs, flag_write]

/-- C10: every value `MainL` passes to `Set` is `0` or `1`, whatever was read; so
after a successful run the Flag is `0` or `1` (a Flag outside `0`, `1` becomes
`1`), two successive successful runs restore the original Flag exactly when it
was `0` or `1`, and three successive successful runs leave the same Flag as
one. -/
theorem written_value_is_boolean (env₁ env₂ env₃ : Env) (store : Store) :
    (∀ uid key value err, Event.set uid key value err ∈ traceOf env₁ store →
      value = 0 ∨ value = 1) ∧
    (env₁.Succeeds →
      (flag (storeAfter env₁ store) = 0 ∨ flag (storeAfter env₁ store) = 1) ∧
      (flag store ≠ 0 ∧ flag store ≠ 1 → flag (storeAfter env₁ store) = 1) ∧
      (env₂.Succeeds →
        (flag (storeAfter env₂ (storeAfter env₁ store)) = flag store ↔
          flag store = 0 ∨ flag store = 1) ∧
        (env₃.Succeeds →
          flag (storeAfter env₃ (storeAfter env₂ (storeAfter env₁ store))) =
            flag (storeAfter env₁ store)))) := by
  refine ⟨?_, fun h₁ => ⟨?_, ?_, fun h₂ => ⟨?_, fun h₃ => ?_⟩⟩⟩
  · intro uid key value err hmem
    rcases env_paths env₁ with ⟨c, hc⟩ | ⟨hc, c, hr⟩ | ⟨hc, hr, hg⟩ | ⟨hc, hr, hg, hs⟩ |
      ⟨hc, hr, hg, hs⟩
    · simp [traceOf, runMainL_dialogFail env₁ store c hc] at hmem
    · simp [traceOf, runMainL_openFail env₁ store c hc hr] at hmem
    · simp [traceOf, runMainL_getFail env₁ store hc hr hg] at hmem
    · simp [traceOf, runMainL_setFail env₁ store hc hr hg hs] at hmem
      rw [hmem.2.2.1]
      split <;> simp
    · simp [traceOf, runMainL_success env₁ store hc hr hg hs] at hmem
      rw [hmem.2.2.1]
      split <;> simp
  · rw [flag_after_succeeds env₁ store h₁]
    split <;> simp
  · intro hv
    rw [flag_after_succeeds env₁ store h₁, if_neg hv.2]
  · rw [flag_after_succeeds env₂ _ h₂, flag_after_succeeds env₁ store h₁]
    by_cases h1 : flag store = 1
    · simp [h1]
    · by_cases h0 : flag store = 0
      · simp [h0]
      · simp only [if_neg h1, if_true]
        constructor
        · intro h
          exact Or.inl h.symm
        · intro h
          rcases h with h | h
          · exact absurd h h0
          · exact absurd h h1
  · rw [flag_after_succeeds env₃ _ h₃, flag_after_succeeds env₂ _ h₂,
      flag_after_succeeds env₁ store h₁]
    by_cases h1 : flag store = 1 <;> simp [h1]

/-- Witness of C10 at Flags `-3` and `5`: one run leaves `1`, two runs leave `0`
(the original is not restored), three runs leave `1` again. -/
theorem written_value_is_boolean_witness :
    okEnv.Succeeds ∧
    flag (storeAfter okEnv (constStore (-3))) = 1 ∧
    flag (storeAfter okEnv (storeAfter okEnv (constStore (-3)))) ≠ flag (constStore (-3)) ∧
    flag (storeAfter okEnv (storeAfter okEnv (storeAfter okEnv (constStore (-3))))) =
      flag (storeAfter okEnv (constStore (-3))) ∧
    flag (storeAfter okEnv (constStore 5)) = 1 ∧
    flag (storeAfter okEnv (storeAfter okEnv (storeAfter okEnv (constStore 5)))) =
      flag (storeAfter okEnv (constStore 5)) :=
  have hn := (written_value_is_boolean okEnv okEnv okEnv (constStore (-3))).2 (by decide)
  have hp := (written_value_is_boolean okEnv okEnv okEnv (constStore 5)).2 (by decide)
  ⟨by decide, hn.2.1 (by decide),
    fun h => absurd ((hn.2.2 (by decide)).1.mp h) (by decide),
    (hn.2.2 (by decide)).2 (by decide),
    hp.2.1 (by decide),
    (hp.2.2 (by decide)).2 (by decide)⟩

end VolumeTest
